import Mathlib

/-!
Shallow embedding of the messenger data-access layer
(`app/models/cassandra_models.py` and the two controllers in
`app/controllers/`).

The storage tier is modelled as an explicit state `DB` holding the four
tables the code touches: `messages`, `user_conversations` (the
ConversationSummary view), `conversation` (the ConversationRecord identity
table) and the `counter` table (an association list from counter name to
value).  Timestamps (`datetime.now()`) are modelled as natural numbers
supplied by the caller.  Each Python coroutine becomes a pure function
threading the `DB` state; `create_message` additionally returns the ordered
list of write statements it issued, so that statement ordering is statable.
-/

/-- A row of the `messages` table. -/
structure MessageRow where
  message_id : Nat
  conversation_id : Nat
  sender_id : Nat
  receiver_id : Nat
  content : String
  timestamp : Nat
deriving DecidableEq, Repr

/-- A row of the `user_conversations` table (the ConversationSummary view). -/
structure SummaryRow where
  conversation_id : Nat
  sender_id : Nat
  receiver_id : Nat
  last_timestamp : Nat
  last_message : String
deriving DecidableEq, Repr

/-- A row of the `conversation` table (the ConversationRecord identity table). -/
structure ConvRecord where
  conversation_id : Nat
  sender_id : Nat
  receiver_id : Nat
  last_timestamp : Nat
deriving DecidableEq, Repr

/-- The storage state: the four tables used by the models layer. -/
structure DB where
  messages : List MessageRow
  user_conversations : List SummaryRow
  conversation : List ConvRecord
  counters : List (String × Nat)
deriving DecidableEq, Repr

/-- Cassandra `UPDATE counter SET counter_value = counter_value + 1 WHERE
counter_name = name`: increments the row if present, otherwise creates it
with value 1 (counter columns start from 0). -/
def incrCounter : List (String × Nat) → String → List (String × Nat)
  | [], name => [(name, 1)]
  | (n, v) :: rest, name =>
      if n == name then (n, v + 1) :: rest else (n, v) :: incrCounter rest name

/-- The dict returned by `MessageModel.create_message`. -/
structure CreatedMessage where
  message_id : Nat
  sender_id : Nat
  receiver_id : Nat
  content : String
  timestamp : Nat
  conversation_id : Nat
deriving DecidableEq, Repr

/-- The dict shape built by the message-listing queries (keys `id`,
`sender_id`, `receiver_id`, `content`, `created_at`, `conversation_id`). -/
structure MsgDict where
  id : Nat
  sender_id : Nat
  receiver_id : Nat
  content : String
  created_at : Nat
  conversation_id : Nat
deriving DecidableEq, Repr

/-- The dict returned by `ConversationModel.get_conversation` and
`create_or_get_conversation` (`last_message_content` is `None` on the
create path). -/
structure ConvDict where
  conversation_id : Nat
  sender_id : Nat
  receiver_id : Nat
  last_message_at : Nat
  last_message_content : Option String
deriving DecidableEq, Repr

/-- An item of the list returned by `ConversationModel.get_user_conversations`. -/
structure ConvListItem where
  id : Nat
  user1_id : Nat
  user2_id : Nat
  last_message_at : Nat
  last_message_content : String
deriving DecidableEq, Repr

/-- A mutating storage statement issued by `create_message`, recorded in
issue order so that the insert-then-upsert ordering contract is statable. -/
inductive StorageWrite where
  | updateCounter (name : String)
  | insertMessage (row : MessageRow)
  | insertSummary (row : SummaryRow)
  | updateSummary (conversation_id last_timestamp : Nat) (last_message : String)
      (sender_id receiver_id : Nat)
deriving DecidableEq, Repr

/-- `MessageModel.create_message`: reads the `message_id` counter (next id is
`value + 1`, or `1` when no row exists), issues an unconditioned counter
increment, inserts the message row, then upserts the `user_conversations`
summary row (insert when no row with this `conversation_id` exists,
otherwise overwrite of the four last-* columns).  Returns the new state, the
created-message dict, and the ordered write trace. -/
def create_message (db : DB) (conversation_id sender_id receiver_id : Nat)
    (content : String) (now : Nat) : DB × CreatedMessage × List StorageWrite :=
  let value := db.counters.lookup "message_id"
  let message_id := match value with | some v => v + 1 | none => 1
  let db1 : DB := { db with counters := incrCounter db.counters "message_id" }
  let created_at := now
  let row : MessageRow :=
    ⟨message_id, conversation_id, sender_id, receiver_id, content, created_at⟩
  let db2 : DB := { db1 with messages := db1.messages ++ [row] }
  let values := db2.user_conversations.filter
    (fun r => r.conversation_id == conversation_id)
  let result : CreatedMessage :=
    ⟨message_id, sender_id, receiver_id, content, created_at, conversation_id⟩
  if values.isEmpty then
    let srow : SummaryRow :=
      ⟨conversation_id, sender_id, receiver_id, created_at, content⟩
    let db3 : DB := { db2 with user_conversations := db2.user_conversations ++ [srow] }
    (db3, result,
      [.updateCounter "message_id", .insertMessage row, .insertSummary srow])
  else
    let db3 : DB := { db2 with user_conversations :=
      db2.user_conversations.map (fun r =>
        if r.conversation_id == conversation_id then
          { r with last_timestamp := created_at, last_message := content,
                   sender_id := sender_id, receiver_id := receiver_id }
        else r) }
    (db3, result,
      [.updateCounter "message_id", .insertMessage row,
       .updateSummary conversation_id created_at content sender_id receiver_id])

/-- The query of `get_conversation_messages`: all rows of `messages` with the
given `conversation_id`, ordered by `timestamp` descending (the clustering
order), each mapped to the response dict. -/
def conversationMessagesRows (db : DB) (conversation_id : Nat) : List MsgDict :=
  let values := (db.messages.filter
      (fun m => m.conversation_id == conversation_id)).mergeSort
      (fun a b => b.timestamp ≤ a.timestamp)
  values.map (fun v =>
    ⟨v.message_id, v.sender_id, v.receiver_id, v.content, v.timestamp,
      conversation_id⟩)

/-- `MessageModel.get_conversation_messages`: fetches the full ordered row
set, then `total = len(messages)`, `offset = (page-1)*limit`,
`paginated = messages[offset:offset+limit]` (the earlier COUNT(*) result is
overwritten by `len(messages)` before being returned). -/
def get_conversation_messages (db : DB) (conversation_id : Nat)
    (page limit : Nat) : List MsgDict × Nat :=
  let messages := conversationMessagesRows db conversation_id
  let total := messages.length
  let offset := (page - 1) * limit
  let paginated_messages := (messages.drop offset).take limit
  let messages := if paginated_messages.isEmpty then [] else paginated_messages
  (messages, total)

/-- The query of `get_messages_before_timestamp`: rows of `messages` with the
given `conversation_id` and `timestamp < before_timestamp`, ordered by
`timestamp` descending, mapped to the response dict. -/
def messagesBeforeRows (db : DB) (conversation_id before_timestamp : Nat) :
    List MsgDict :=
  let values := (db.messages.filter
      (fun m => m.conversation_id == conversation_id &&
        decide (m.timestamp < before_timestamp))).mergeSort
      (fun a b => b.timestamp ≤ a.timestamp)
  values.map (fun v =>
    ⟨v.message_id, v.sender_id, v.receiver_id, v.content, v.timestamp,
      conversation_id⟩)

/-- `MessageModel.get_messages_before_timestamp`: same pagination as
`get_conversation_messages` over the timestamp-bounded row set. -/
def get_messages_before_timestamp (db : DB) (conversation_id before_timestamp : Nat)
    (page limit : Nat) : List MsgDict × Nat :=
  let messages := messagesBeforeRows db conversation_id before_timestamp
  let total := messages.length
  let offset := (page - 1) * limit
  let paginated_messages := (messages.drop offset).take limit
  let messages := if paginated_messages.isEmpty then [] else paginated_messages
  (messages, total)

/-- The union list built by `get_user_conversations`: the sender-scan rows
(`WHERE sender_id = user_id ALLOW FILTERING`) followed by the receiver-scan
rows (`WHERE receiver_id = user_id ALLOW FILTERING`), in table order.  The
source then calls `sorted(values_list, key=...)` and discards the returned
list, so no sorting takes effect. -/
def userConversationRows (db : DB) (user_id : Nat) : List SummaryRow :=
  let values1 := db.user_conversations.filter (fun r => r.receiver_id == user_id)
  let values := db.user_conversations.filter (fun r => r.sender_id == user_id)
  values ++ values1

/-- `ConversationModel.get_user_conversations`: `total = len(values_list)`,
offset slice, then each row is mapped to the response item. -/
def get_user_conversations (db : DB) (user_id page limit : Nat) :
    List ConvListItem × Nat :=
  let values_list := userConversationRows db user_id
  let total := values_list.length
  let offset := (page - 1) * limit
  let paginated_values := (values_list.drop offset).take limit
  (paginated_values.map (fun v =>
    ⟨v.conversation_id, v.sender_id, v.receiver_id, v.last_timestamp,
      v.last_message⟩), total)

/-- `ConversationModel.get_conversation`: single lookup in
`user_conversations` by `conversation_id`; `None` when no row matches,
otherwise the first row mapped to the response dict. -/
def get_conversation (db : DB) (conversation_id : Nat) : Option ConvDict :=
  let values := db.user_conversations.filter
    (fun r => r.conversation_id == conversation_id)
  match values with
  | [] => none
  | v :: _ =>
      some ⟨v.conversation_id, v.sender_id, v.receiver_id, v.last_timestamp,
        some v.last_message⟩

/-- `ConversationModel.create_or_get_conversation`: probes the
`conversation` identity table with both orderings of the user pair; on a
hit, returns `get_conversation` of the found id (state unchanged); otherwise
reads the `conversation_id` counter, increments it, inserts a new
ConversationRecord and returns the freshly built dict. -/
def create_or_get_conversation (db : DB) (user1_id user2_id : Nat) (now : Nat) :
    DB × Option ConvDict :=
  let values1 := db.conversation.filter
    (fun r => r.sender_id == user1_id && r.receiver_id == user2_id)
  let values2 := db.conversation.filter
    (fun r => r.sender_id == user2_id && r.receiver_id == user1_id)
  match values1 with
  | v :: _ => (db, get_conversation db v.conversation_id)
  | [] =>
    match values2 with
    | v :: _ => (db, get_conversation db v.conversation_id)
    | [] =>
      let value := db.counters.lookup "conversation_id"
      let conversation_id := match value with | some v => v + 1 | none => 1
      let db1 : DB := { db with counters := incrCounter db.counters "conversation_id" }
      let created_at := now
      let db2 : DB := { db1 with conversation :=
        db1.conversation ++ [⟨conversation_id, user1_id, user2_id, created_at⟩] }
      (db2, some ⟨conversation_id, user1_id, user2_id, created_at, none⟩)

/-- `ConversationModel.create_conversation`: allocates the next conversation
id from the counter and inserts a ConversationRecord. -/
def create_conversation (db : DB) (sender_id receiver_id : Nat) (now : Nat) :
    DB × ConvRecord :=
  let result := db.counters.lookup "conversation_id"
  let conversation_id := match result with | some v => v + 1 | none => 1
  let db1 : DB := { db with counters := incrCounter db.counters "conversation_id" }
  let db2 : DB := { db1 with conversation :=
    db1.conversation ++ [⟨conversation_id, sender_id, receiver_id, now⟩] }
  (db2, ⟨conversation_id, sender_id, receiver_id, now⟩)

/-- The error carried by `HTTPException` at the controller layer. -/
inductive ApiError where
  | httpError (status : Nat) (detail : String)
deriving DecidableEq, Repr

/-- `PaginatedMessageResponse` as assembled by the message controller. -/
structure PaginatedMessageResponse where
  total : Nat
  page : Nat
  limit : Nat
  data : List MsgDict
deriving DecidableEq, Repr

/-- `MessageController.get_conversation_messages`: 404 when
`get_conversation` finds no summary row, otherwise the paginated model
result wrapped in a response. -/
def controller_get_conversation_messages (db : DB) (conversation_id page limit : Nat) :
    Except ApiError PaginatedMessageResponse :=
  match get_conversation db conversation_id with
  | none => .error (.httpError 404
      ("Conversation with ID " ++ toString conversation_id ++ " not found"))
  | some _ =>
      let r := get_conversation_messages db conversation_id page limit
      .ok ⟨r.2, page, limit, r.1⟩

/-- `MessageController.get_messages_before_timestamp`: 404 when
`get_conversation` finds no summary row, otherwise the paginated model
result wrapped in a response. -/
def controller_get_messages_before_timestamp (db : DB)
    (conversation_id before_timestamp page limit : Nat) :
    Except ApiError PaginatedMessageResponse :=
  match get_conversation db conversation_id with
  | none => .error (.httpError 404
      ("Conversation with ID " ++ toString conversation_id ++ " not found"))
  | some _ =>
      let r := get_messages_before_timestamp db conversation_id before_timestamp
        page limit
      .ok ⟨r.2, page, limit, r.1⟩

/-- Concrete state for exercising the pagination equations: three messages in
conversation 1 plus its summary row. -/
def dbPag : DB :=
  ⟨[⟨1, 1, 1, 2, "x", 0⟩, ⟨2, 1, 2, 1, "y", 3⟩, ⟨3, 1, 1, 2, "z", 5⟩],
   [⟨1, 1, 2, 5, "z"⟩], [], []⟩

/-- Concrete state with two summary rows sharing sender 7, stored with the
older timestamp first. -/
def dbScan : DB := ⟨[], [⟨10, 7, 8, 1, "a"⟩, ⟨11, 7, 9, 2, "b"⟩], [], []⟩

/-- The empty storage state. -/
def dbEmpty : DB := ⟨[], [], [], []⟩

/-- Concrete state holding one summary row for conversation 1 and no
identity-table rows. -/
def dbSum : DB := ⟨[], [⟨1, 1, 2, 0, "hi"⟩], [], []⟩

/-- Concrete state with a message-id counter at 5 and no conversations. -/
def dbCnt : DB := ⟨[], [], [], [("message_id", 5)]⟩

/-- Concrete state with one message at timestamp 0 in conversation 1. -/
def dbMsg : DB := ⟨[⟨1, 1, 1, 2, "x", 0⟩], [], [], []⟩

/-- Concrete state holding a summary for conversation 1 and no messages. -/
def dbNoMsg : DB := ⟨[], [⟨1, 1, 2, 0, "hi"⟩], [], []⟩

/-- Concrete state with a conversation-id counter at 2. -/
def dbCnt2 : DB := ⟨[], [], [], [("conversation_id", 2)]⟩

/-- Concrete state with an identity-table row for the pair (1,2) but no
summary row for its conversation id. -/
def dbOrphan : DB := ⟨[], [], [⟨1, 1, 2, 0⟩], []⟩

/-- Concrete state with a single self-conversation summary row of user 3. -/
def dbSelf : DB := ⟨[], [⟨5, 3, 3, 9, "m"⟩], [], []⟩

/-- Collapsing the redundant `messages = paginated if paginated else []`
reassignment. -/
theorem if_isEmpty_self {α : Type} (l : List α) :
    (if l.isEmpty then ([] : List α) else l) = l := by
  cases l <;> simp

/-- String equality tests are symmetric. -/
theorem strBeq_comm (a b : String) : (a == b) = (b == a) := by
  by_cases h : a = b
  · subst h; rfl
  · rw [beq_eq_false_iff_ne.mpr h, beq_eq_false_iff_ne.mpr (Ne.symm h)]

/-- `incrCounter` bumps exactly the named counter: reading it afterwards
yields the old value plus one (one, if the row did not exist), and every
other counter is untouched. -/
theorem lookup_incrCounter (cs : List (String × Nat)) (n name : String) :
    (incrCounter cs name).lookup n =
      if n == name then some ((cs.lookup name).getD 0 + 1) else cs.lookup n := by
  induction cs with
  | nil =>
      simp only [incrCounter, List.lookup]
      cases h : n == name <;> simp [List.lookup, h]
  | cons p rest ih =>
      obtain ⟨k, v⟩ := p
      simp only [incrCounter]
      cases hk : k == name with
      | true =>
          have hk' : k = name := beq_iff_eq.mp hk
          subst hk'
          cases hn : n == k <;> simp [List.lookup, hn]
      | false =>
          have hk' : (name == k) = false := by rw [strBeq_comm]; exact hk
          cases hn : n == k with
          | true =>
              have hn' : n = k := beq_iff_eq.mp hn
              subst hn'
              simp [List.lookup, hk]
          | false =>
              simp [List.lookup, hn, hk', ih]

/-- Offset slicing covers the sequence: concatenating the first `N` pages of
size `k` yields the first `N * k` elements. -/
theorem pages_flatten {α : Type} (S : List α) (k N : Nat) :
    ((List.range N).map (fun i => (S.drop (i * k)).take k)).flatten =
      S.take (N * k) := by
  induction N with
  | zero => simp
  | succ n ih =>
      rw [List.range_succ, List.map_append, List.flatten_append]
      simp only [List.map_cons, List.map_nil, List.flatten_cons,
        List.flatten_nil, List.append_nil]
      rw [ih, Nat.succ_mul, List.take_add S (n * k) k]

/-- `get_conversation_messages` is exactly the offset slice of the ordered
query rows, paired with their total count. -/
theorem get_conversation_messages_eq (db : DB) (cid page limit : Nat) :
    get_conversation_messages db cid page limit =
      (((conversationMessagesRows db cid).drop ((page - 1) * limit)).take limit,
        (conversationMessagesRows db cid).length) := by
  simp [get_conversation_messages, if_isEmpty_self]

/-- `get_messages_before_timestamp` is exactly the offset slice of the
timestamp-bounded query rows, paired with their total count. -/
theorem get_messages_before_timestamp_eq (db : DB) (cid T page limit : Nat) :
    get_messages_before_timestamp db cid T page limit =
      (((messagesBeforeRows db cid T).drop ((page - 1) * limit)).take limit,
        (messagesBeforeRows db cid T).length) := by
  simp [get_messages_before_timestamp, if_isEmpty_self]

/-- `get_user_conversations` is exactly the offset slice of the (unsorted)
two-scan union, mapped to response items, paired with the length of the union. -/
theorem get_user_conversations_eq (db : DB) (u page limit : Nat) :
    get_user_conversations db u page limit =
      ((((userConversationRows db u).drop ((page - 1) * limit)).take limit).map
        (fun v => ⟨v.conversation_id, v.sender_id, v.receiver_id,
          v.last_timestamp, v.last_message⟩),
        (userConversationRows db u).length) := by
  simp [get_user_conversations]

/-- A summary returned by `get_conversation` carries the queried id. -/
theorem get_conversation_id (db : DB) (x : Nat) (d : ConvDict)
    (h : get_conversation db x = some d) : d.conversation_id = x := by
  unfold get_conversation at h
  cases hf : db.user_conversations.filter (fun r => r.conversation_id == x) with
  | nil => rw [hf] at h; simp at h
  | cons v rest =>
      rw [hf] at h
      have hv : v ∈ db.user_conversations.filter
          (fun r => r.conversation_id == x) := by
        rw [hf]; exact List.mem_cons_self v rest
      have hvx : (v.conversation_id == x) = true := (List.mem_filter.mp hv).2
      have : d = ⟨v.conversation_id, v.sender_id, v.receiver_id,
          v.last_timestamp, some v.last_message⟩ := by
        cases h; rfl
      rw [this]
      exact beq_iff_eq.mp hvx

/-- `get_conversation` answers `none` precisely when no summary row with the
queried `conversation_id` exists. -/
theorem get_conversation_none_iff (db : DB) (cid : Nat) :
    get_conversation db cid = none ↔
      db.user_conversations.filter
        (fun r => r.conversation_id == cid) = [] := by
  unfold get_conversation
  cases h : db.user_conversations.filter
      (fun r => r.conversation_id == cid) <;> simp [h]

/-- When a summary row with the queried `conversation_id` exists,
`get_conversation` returns a summary carrying that id. -/
theorem get_conversation_isSome (db : DB) (x : Nat)
    (h : db.user_conversations.filter
      (fun r => r.conversation_id == x) ≠ []) :
    ∃ d, get_conversation db x = some d ∧ d.conversation_id = x := by
  cases hf : db.user_conversations.filter
      (fun r => r.conversation_id == x) with
  | nil => exact absurd hf h
  | cons v rest =>
      have hv : get_conversation db x = some ⟨v.conversation_id, v.sender_id,
          v.receiver_id, v.last_timestamp, some v.last_message⟩ := by
        unfold get_conversation
        rw [hf]
      exact ⟨_, hv, get_conversation_id db x _ hv⟩

/-- C1: for every page ≥ 1 and limit ≥ 1, the pagination logic inlined in
`get_conversation_messages`, `get_messages_before_timestamp` and
`get_user_conversations` returns `total = length S` and
`pageItems = S[(page-1)*limit : (page-1)*limit + limit]` over its ordered
query result `S`; the page is empty once the offset reaches the total, each
page carries `min limit (length S - offset)` items (truncated subtraction
playing the role of `max 0`), and concatenating the first `N` pages, for any
`N` with `length S ≤ N * limit`, reconstructs `S` exactly. -/
theorem C1_pagination (db : DB) (cid T u page limit N : Nat)
    (hp : 1 ≤ page) (hl : 1 ≤ limit)
    (hN : (conversationMessagesRows db cid).length ≤ N * limit) :
    get_conversation_messages db cid page limit =
      (((conversationMessagesRows db cid).drop ((page - 1) * limit)).take limit,
        (conversationMessagesRows db cid).length) ∧
    get_messages_before_timestamp db cid T page limit =
      (((messagesBeforeRows db cid T).drop ((page - 1) * limit)).take limit,
        (messagesBeforeRows db cid T).length) ∧
    (get_user_conversations db u page limit).2 =
      (userConversationRows db u).length ∧
    (get_user_conversations db u page limit).1 =
      (((userConversationRows db u).drop ((page - 1) * limit)).take limit).map
        (fun v => ⟨v.conversation_id, v.sender_id, v.receiver_id,
          v.last_timestamp, v.last_message⟩) ∧
    ((conversationMessagesRows db cid).length ≤ (page - 1) * limit →
      (get_conversation_messages db cid page limit).1 = []) ∧
    (get_conversation_messages db cid page limit).1.length =
      min limit ((conversationMessagesRows db cid).length - (page - 1) * limit) ∧
    ((List.range N).map
        (fun i => (get_conversation_messages db cid (i + 1) limit).1)).flatten =
      conversationMessagesRows db cid := by
  refine ⟨get_conversation_messages_eq db cid page limit,
    get_messages_before_timestamp_eq db cid T page limit, ?_, ?_, ?_, ?_, ?_⟩
  · rw [get_user_conversations_eq]
  · rw [get_user_conversations_eq]
  · intro h
    rw [get_conversation_messages_eq]
    simp [List.drop_eq_nil_of_le h]
  · rw [get_conversation_messages_eq]
    simp [List.length_take, List.length_drop]
  · have hpage : (fun i => (get_conversation_messages db cid (i + 1) limit).1) =
        (fun i => ((conversationMessagesRows db cid).drop (i * limit)).take limit) := by
      funext i
      rw [get_conversation_messages_eq]
      simp
    rw [hpage, pages_flatten, List.take_of_length_le hN]

/-- Witness for C1 at `dbPag`, conversation 1, page 1, limit 2, `N = 2`. -/
theorem C1_pagination_witness :
    1 ≤ 1 ∧ 1 ≤ 2 ∧ (conversationMessagesRows dbPag 1).length ≤ 2 * 2 ∧
    (get_conversation_messages dbPag 1 1 2 =
      (((conversationMessagesRows dbPag 1).drop ((1 - 1) * 2)).take 2,
        (conversationMessagesRows dbPag 1).length) ∧
    get_messages_before_timestamp dbPag 1 4 1 2 =
      (((messagesBeforeRows dbPag 1 4).drop ((1 - 1) * 2)).take 2,
        (messagesBeforeRows dbPag 1 4).length) ∧
    (get_user_conversations dbPag 0 1 2).2 =
      (userConversationRows dbPag 0).length ∧
    (get_user_conversations dbPag 0 1 2).1 =
      (((userConversationRows dbPag 0).drop ((1 - 1) * 2)).take 2).map
        (fun v => ⟨v.conversation_id, v.sender_id, v.receiver_id,
          v.last_timestamp, v.last_message⟩) ∧
    ((conversationMessagesRows dbPag 1).length ≤ (1 - 1) * 2 →
      (get_conversation_messages dbPag 1 1 2).1 = []) ∧
    (get_conversation_messages dbPag 1 1 2).1.length =
      min 2 ((conversationMessagesRows dbPag 1).length - (1 - 1) * 2) ∧
    ((List.range 2).map
        (fun i => (get_conversation_messages dbPag 1 (i + 1) 2).1)).flatten =
      conversationMessagesRows dbPag 1) :=
  ⟨by decide, by decide,
    by simp [conversationMessagesRows, dbPag, List.mergeSort],
    C1_pagination dbPag 1 4 0 1 2 2 (by decide) (by decide)
      (by simp [conversationMessagesRows, dbPag, List.mergeSort])⟩

/-- C2 (refuting evaluation): at `dbScan`, the two summary rows of user 7 are
stored older-first; `get_user_conversations` returns them in that stored
order (`last_message_at` sequence `[1, 2]`), not sorted by `last_timestamp`
descending (which would be `[2, 1]`): the `sorted(...)` call in the source
discards its result. -/
theorem C2_sorted_discarded :
    (get_user_conversations dbScan 7 1 20).1.map (fun c => c.last_message_at) =
      [1, 2] := by decide

/-- When the first orientation probe of the identity table hits, the call
returns the summary of the first found record and leaves the state
unchanged. -/
theorem create_or_get_found (db : DB) (A B now : Nat) (v : ConvRecord)
    (rest : List ConvRecord)
    (h : db.conversation.filter
        (fun r => r.sender_id == A && r.receiver_id == B) = v :: rest) :
    create_or_get_conversation db A B now =
      (db, get_conversation db v.conversation_id) := by
  unfold create_or_get_conversation
  simp [h]

/-- When only the swapped orientation probe hits, the call likewise returns
the summary of the first found record and leaves the state unchanged. -/
theorem create_or_get_found2 (db : DB) (A B now : Nat) (v : ConvRecord)
    (rest : List ConvRecord)
    (h1 : db.conversation.filter
        (fun r => r.sender_id == A && r.receiver_id == B) = [])
    (h2 : db.conversation.filter
        (fun r => r.sender_id == B && r.receiver_id == A) = v :: rest) :
    create_or_get_conversation db A B now =
      (db, get_conversation db v.conversation_id) := by
  unfold create_or_get_conversation
  simp [h1, h2]

/-- When neither orientation of the pair is present, the call allocates the
next conversation id, bumps the counter and appends one identity record. -/
theorem create_or_get_fresh (db : DB) (A B now : Nat)
    (h1 : db.conversation.filter
        (fun r => r.sender_id == A && r.receiver_id == B) = [])
    (h2 : db.conversation.filter
        (fun r => r.sender_id == B && r.receiver_id == A) = []) :
    create_or_get_conversation db A B now =
      ({ messages := db.messages, user_conversations := db.user_conversations,
         conversation := db.conversation ++
           [⟨(db.counters.lookup "conversation_id").getD 0 + 1, A, B, now⟩],
         counters := incrCounter db.counters "conversation_id" },
       some ⟨(db.counters.lookup "conversation_id").getD 0 + 1, A, B, now,
         none⟩) := by
  unfold create_or_get_conversation
  simp [h1, h2]
  cases db.counters.lookup "conversation_id" <;> rfl

/-- C3 (refuting evaluation): starting from the empty store,
`create_or_get_conversation 1 2` allocates conversation 1, but the
subsequent `create_or_get_conversation 2 1` returns `none` — not the same
`conversation_id` — because the freshly created conversation has no summary
row yet. -/
theorem C3_counterexample :
    (create_or_get_conversation dbEmpty 1 2 0).2 =
      some ⟨1, 1, 2, 0, none⟩ ∧
    (create_or_get_conversation
        (create_or_get_conversation dbEmpty 1 2 0).1 2 1 1).2 = none := by
  decide

/-- C3 (amended): once `create_or_get_conversation A B` has completed on a
store with no identity record for the pair, subsequent calls with either
ordering change nothing (in particular they never allocate a new
conversation id); when no summary row with the allocated id exists they
return `none`, and when one exists they return a summary carrying exactly
the `conversation_id` the first call allocated. -/
theorem C3_amended_dedup (db : DB) (A B now now2 : Nat)
    (h1 : db.conversation.filter
        (fun r => r.sender_id == A && r.receiver_id == B) = [])
    (h2 : db.conversation.filter
        (fun r => r.sender_id == B && r.receiver_id == A) = []) :
    (create_or_get_conversation db A B now).2 =
      some ⟨(db.counters.lookup "conversation_id").getD 0 + 1, A, B, now,
        none⟩ ∧
    (create_or_get_conversation
        (create_or_get_conversation db A B now).1 B A now2).1 =
      (create_or_get_conversation db A B now).1 ∧
    (create_or_get_conversation
        (create_or_get_conversation db A B now).1 A B now2).1 =
      (create_or_get_conversation db A B now).1 ∧
    (db.user_conversations.filter (fun r => r.conversation_id ==
        (db.counters.lookup "conversation_id").getD 0 + 1) = [] →
      (create_or_get_conversation
        (create_or_get_conversation db A B now).1 B A now2).2 = none ∧
      (create_or_get_conversation
        (create_or_get_conversation db A B now).1 A B now2).2 = none) ∧
    (db.user_conversations.filter (fun r => r.conversation_id ==
        (db.counters.lookup "conversation_id").getD 0 + 1) ≠ [] →
      (∃ d, (create_or_get_conversation
          (create_or_get_conversation db A B now).1 B A now2).2 = some d ∧
        d.conversation_id =
          (db.counters.lookup "conversation_id").getD 0 + 1) ∧
      (∃ d, (create_or_get_conversation
          (create_or_get_conversation db A B now).1 A B now2).2 = some d ∧
        d.conversation_id =
          (db.counters.lookup "conversation_id").getD 0 + 1)) := by
  have hfresh := create_or_get_fresh db A B now h1 h2
  set nid := (db.counters.lookup "conversation_id").getD 0 + 1 with hnid
  set rec : ConvRecord := ⟨nid, A, B, now⟩ with hrec
  set dbNew : DB :=
    { messages := db.messages, user_conversations := db.user_conversations,
      conversation := db.conversation ++ [rec],
      counters := incrCounter db.counters "conversation_id" } with hdbNew
  rw [hfresh]
  have hfAB : dbNew.conversation.filter
      (fun r => r.sender_id == A && r.receiver_id == B) = [rec] := by
    show (db.conversation ++ [rec]).filter _ = [rec]
    rw [List.filter_append, h1]
    simp [hrec]
  have hthird := create_or_get_found dbNew A B now2 rec [] hfAB
  have hsecond : create_or_get_conversation dbNew B A now2 =
      (dbNew, get_conversation dbNew rec.conversation_id) := by
    by_cases hAB : A = B
    · subst hAB
      exact create_or_get_found dbNew A A now2 rec [] hfAB
    · have hfBA : dbNew.conversation.filter
          (fun r => r.sender_id == B && r.receiver_id == A) = [] := by
        show (db.conversation ++ [rec]).filter _ = []
        rw [List.filter_append, h2]
        simp [hrec]
        exact fun h => absurd h hAB
      exact create_or_get_found2 dbNew B A now2 rec [] hfBA hfAB
  refine ⟨rfl, ?_, ?_, ?_, ?_⟩
  · rw [hsecond]
  · rw [hthird]
  · intro h
    constructor
    · rw [hsecond]
      exact (get_conversation_none_iff dbNew rec.conversation_id).mpr h
    · rw [hthird]
      exact (get_conversation_none_iff dbNew rec.conversation_id).mpr h
  · intro h
    obtain ⟨d, hd, hid⟩ := get_conversation_isSome dbNew rec.conversation_id h
    constructor
    · exact ⟨d, by rw [hsecond]; exact hd, hid⟩
    · exact ⟨d, by rw [hthird]; exact hd, hid⟩

/-- Witness for the amended C3 at `dbSum` (a summary row for conversation 1
exists, the identity table is empty) with the pair (1, 2). -/
theorem C3_amended_dedup_witness :
    dbSum.conversation.filter
        (fun r => r.sender_id == 1 && r.receiver_id == 2) = [] ∧
    dbSum.conversation.filter
        (fun r => r.sender_id == 2 && r.receiver_id == 1) = [] ∧
    ((create_or_get_conversation dbSum 1 2 3).2 =
      some ⟨(dbSum.counters.lookup "conversation_id").getD 0 + 1, 1, 2, 3,
        none⟩ ∧
    (create_or_get_conversation
        (create_or_get_conversation dbSum 1 2 3).1 2 1 4).1 =
      (create_or_get_conversation dbSum 1 2 3).1 ∧
    (create_or_get_conversation
        (create_or_get_conversation dbSum 1 2 3).1 1 2 4).1 =
      (create_or_get_conversation dbSum 1 2 3).1 ∧
    (dbSum.user_conversations.filter (fun r => r.conversation_id ==
        (dbSum.counters.lookup "conversation_id").getD 0 + 1) = [] →
      (create_or_get_conversation
        (create_or_get_conversation dbSum 1 2 3).1 2 1 4).2 = none ∧
      (create_or_get_conversation
        (create_or_get_conversation dbSum 1 2 3).1 1 2 4).2 = none) ∧
    (dbSum.user_conversations.filter (fun r => r.conversation_id ==
        (dbSum.counters.lookup "conversation_id").getD 0 + 1) ≠ [] →
      (∃ d, (create_or_get_conversation
          (create_or_get_conversation dbSum 1 2 3).1 2 1 4).2 = some d ∧
        d.conversation_id =
          (dbSum.counters.lookup "conversation_id").getD 0 + 1) ∧
      (∃ d, (create_or_get_conversation
          (create_or_get_conversation dbSum 1 2 3).1 1 2 4).2 = some d ∧
        d.conversation_id =
          (dbSum.counters.lookup "conversation_id").getD 0 + 1))) :=
  ⟨by decide, by decide, C3_amended_dedup dbSum 1 2 3 4 (by decide) (by decide)⟩

/-- `create_message` always leaves the counter table with the `message_id`
counter incremented, whatever summary branch it takes. -/
theorem create_message_counters (db : DB) (cid s r : Nat) (c : String)
    (now : Nat) :
    (create_message db cid s r c now).1.counters =
      incrCounter db.counters "message_id" := by
  simp only [create_message]
  split <;> rfl

/-- The id stored in the created-message dict is the read counter value plus
one, or one when no counter row exists. -/
theorem create_message_id (db : DB) (cid s r : Nat) (c : String)
    (now : Nat) :
    (create_message db cid s r c now).2.1.message_id =
      (match db.counters.lookup "message_id" with
        | some v => v + 1 | none => 1) := by
  simp only [create_message]
  split <;> rfl

/-- C4: every id allocation computes the new id as the stored counter value
plus one — one when no counter row exists — and afterwards the separately
issued unconditioned increment leaves the counter exactly one above the
value that was read: for message ids in `create_message` and, on the create
path, for conversation ids in `create_or_get_conversation`. -/
theorem C4_id_allocation (db : DB) (cid s r now A B : Nat) (c : String)
    (h1 : db.conversation.filter
        (fun x => x.sender_id == A && x.receiver_id == B) = [])
    (h2 : db.conversation.filter
        (fun x => x.sender_id == B && x.receiver_id == A) = []) :
    (create_message db cid s r c now).2.1.message_id =
      (match db.counters.lookup "message_id" with
        | some v => v + 1 | none => 1) ∧
    (create_message db cid s r c now).1.counters.lookup "message_id" =
      some ((db.counters.lookup "message_id").getD 0 + 1) ∧
    (create_or_get_conversation db A B now).2 =
      some ⟨(match db.counters.lookup "conversation_id" with
        | some v => v + 1 | none => 1), A, B, now, none⟩ ∧
    (create_or_get_conversation db A B now).1.counters.lookup
        "conversation_id" =
      some ((db.counters.lookup "conversation_id").getD 0 + 1) := by
  refine ⟨create_message_id db cid s r c now, ?_, ?_, ?_⟩
  · rw [create_message_counters, lookup_incrCounter]
    simp
  · rw [create_or_get_fresh db A B now h1 h2]
    cases db.counters.lookup "conversation_id" <;> rfl
  · rw [create_or_get_fresh db A B now h1 h2]
    show (incrCounter db.counters "conversation_id").lookup
      "conversation_id" = _
    rw [lookup_incrCounter]
    simp

/-- Witness for C4 at `dbCnt` (message-id counter at 5, no identity records)
with the pair (1, 2). -/
theorem C4_id_allocation_witness :
    dbCnt.conversation.filter
        (fun x => x.sender_id == 1 && x.receiver_id == 2) = [] ∧
    dbCnt.conversation.filter
        (fun x => x.sender_id == 2 && x.receiver_id == 1) = [] ∧
    ((create_message dbCnt 1 1 2 "hi" 0).2.1.message_id =
      (match dbCnt.counters.lookup "message_id" with
        | some v => v + 1 | none => 1) ∧
    (create_message dbCnt 1 1 2 "hi" 0).1.counters.lookup "message_id" =
      some ((dbCnt.counters.lookup "message_id").getD 0 + 1) ∧
    (create_or_get_conversation dbCnt 1 2 0).2 =
      some ⟨(match dbCnt.counters.lookup "conversation_id" with
        | some v => v + 1 | none => 1), 1, 2, 0, none⟩ ∧
    (create_or_get_conversation dbCnt 1 2 0).1.counters.lookup
        "conversation_id" =
      some ((dbCnt.counters.lookup "conversation_id").getD 0 + 1)) :=
  ⟨by decide, by decide,
    C4_id_allocation dbCnt 1 1 2 0 1 2 "hi" (by decide) (by decide)⟩

/-- C5: `create_message` appends the message row to the message log, and its
write trace places that insert strictly before the summary upsert; the
upsert inserts a fresh summary row when none with this `conversation_id`
exists and otherwise overwrites only `last_timestamp`, `last_message`,
`sender_id` and `receiver_id`, leaving the `conversation_id` of every row
unchanged. -/
theorem C5_append_then_touch (db : DB) (cid s r : Nat) (c : String)
    (now : Nat) :
    (create_message db cid s r c now).1.messages =
      db.messages ++ [⟨(match db.counters.lookup "message_id" with
        | some v => v + 1 | none => 1), cid, s, r, c, now⟩] ∧
    (create_message db cid s r c now).2.2 =
      [.updateCounter "message_id",
       .insertMessage ⟨(match db.counters.lookup "message_id" with
         | some v => v + 1 | none => 1), cid, s, r, c, now⟩,
       if (db.user_conversations.filter
           (fun x => x.conversation_id == cid)).isEmpty then
         .insertSummary ⟨cid, s, r, now, c⟩
       else .updateSummary cid now c s r] ∧
    (create_message db cid s r c now).1.user_conversations =
      (if (db.user_conversations.filter
          (fun x => x.conversation_id == cid)).isEmpty then
        db.user_conversations ++ [⟨cid, s, r, now, c⟩]
      else db.user_conversations.map (fun x =>
        if x.conversation_id == cid then ⟨x.conversation_id, s, r, now, c⟩
        else x)) ∧
    (create_message db cid s r c now).1.user_conversations.map
        (fun x => x.conversation_id) =
      (if (db.user_conversations.filter
          (fun x => x.conversation_id == cid)).isEmpty then
        db.user_conversations.map (fun x => x.conversation_id) ++ [cid]
      else db.user_conversations.map (fun x => x.conversation_id)) := by
  have hids : (fun x : SummaryRow =>
      (if x.conversation_id == cid then
        (⟨x.conversation_id, s, r, now, c⟩ : SummaryRow)
      else x).conversation_id) = fun x : SummaryRow => x.conversation_id := by
    funext x
    by_cases h : x.conversation_id == cid <;> simp [h]
  by_cases hv : (db.user_conversations.filter
      (fun x => x.conversation_id == cid)).isEmpty
  · refine ⟨?_, ?_, ?_, ?_⟩ <;>
      simp only [create_message, hv, if_true] <;>
      first
        | rfl
        | simp [List.map_append]
  · refine ⟨?_, ?_, ?_, ?_⟩ <;>
      simp only [create_message, hv, if_false, Bool.false_eq_true] <;>
      first
        | rfl
        | (rw [List.map_map]
           show db.user_conversations.map _ = _
           rw [show ((fun x : SummaryRow => x.conversation_id) ∘ (fun x =>
             if x.conversation_id == cid then
               (⟨x.conversation_id, s, r, now, c⟩ : SummaryRow)
             else x)) = fun x : SummaryRow => x.conversation_id from hids])

/-- C6: every message returned by `get_messages_before_timestamp` has a
timestamp strictly below the bound. -/
theorem C6_before_timestamp_bound (db : DB) (cid T page limit : Nat) :
    ∀ m ∈ (get_messages_before_timestamp db cid T page limit).1,
      m.created_at < T := by
  intro m hm
  rw [get_messages_before_timestamp_eq] at hm
  have h1 : m ∈ messagesBeforeRows db cid T :=
    List.drop_subset _ _ (List.take_subset _ _ hm)
  simp only [messagesBeforeRows] at h1
  obtain ⟨v, hv, hveq⟩ := List.mem_map.mp h1
  have hvf : v ∈ db.messages.filter
      (fun m => m.conversation_id == cid && decide (m.timestamp < T)) :=
    List.mem_mergeSort.mp hv
  have hp := (List.mem_filter.mp hvf).2
  simp only [Bool.and_eq_true, decide_eq_true_eq] at hp
  rw [← hveq]
  exact hp.2

/-- Witness for C6 at `dbMsg`: the stored message (timestamp 0) is on the
returned page for bound 5, and its timestamp is below the bound. -/
theorem C6_before_timestamp_bound_witness :
    (⟨1, 1, 2, "x", 0, 1⟩ : MsgDict) ∈
      (get_messages_before_timestamp dbMsg 1 5 1 20).1 ∧ (0 : Nat) < 5 :=
  ⟨by simp [get_messages_before_timestamp, messagesBeforeRows, dbMsg,
      List.mergeSort],
   C6_before_timestamp_bound dbMsg 1 5 1 20 ⟨1, 1, 2, "x", 0, 1⟩
     (by simp [get_messages_before_timestamp, messagesBeforeRows, dbMsg,
       List.mergeSort])⟩

/-- An empty message partition yields an empty ordered row set. -/
theorem conversationMessagesRows_nil (db : DB) (cid : Nat)
    (h : db.messages.filter (fun m => m.conversation_id == cid) = []) :
    conversationMessagesRows db cid = [] := by
  simp [conversationMessagesRows, h]

/-- An empty bounded message partition yields an empty ordered row set. -/
theorem messagesBeforeRows_nil (db : DB) (cid T : Nat)
    (h : db.messages.filter (fun m => m.conversation_id == cid &&
      decide (m.timestamp < T)) = []) :
    messagesBeforeRows db cid T = [] := by
  simp [messagesBeforeRows, h]

/-- C7: both message-listing controllers answer the 404 not-found error
exactly when no summary row with the requested `conversation_id` exists, and
when the conversation exists but has no (matching) messages they succeed
with `total = 0` and an empty data list — absence and emptiness are
distinguishable. -/
theorem C7_absence_vs_empty (db : DB) (cid T page limit : Nat) :
    (controller_get_conversation_messages db cid page limit =
        .error (.httpError 404
          ("Conversation with ID " ++ toString cid ++ " not found")) ↔
      db.user_conversations.filter
        (fun x => x.conversation_id == cid) = []) ∧
    (controller_get_messages_before_timestamp db cid T page limit =
        .error (.httpError 404
          ("Conversation with ID " ++ toString cid ++ " not found")) ↔
      db.user_conversations.filter
        (fun x => x.conversation_id == cid) = []) ∧
    (db.user_conversations.filter (fun x => x.conversation_id == cid) ≠ [] →
      db.messages.filter (fun m => m.conversation_id == cid) = [] →
      controller_get_conversation_messages db cid page limit =
        .ok ⟨0, page, limit, []⟩) ∧
    (db.user_conversations.filter (fun x => x.conversation_id == cid) ≠ [] →
      db.messages.filter (fun m => m.conversation_id == cid &&
        decide (m.timestamp < T)) = [] →
      controller_get_messages_before_timestamp db cid T page limit =
        .ok ⟨0, page, limit, []⟩) := by
  have hiff := get_conversation_none_iff db cid
  cases hgc : get_conversation db cid with
  | none =>
      have hfil := hiff.mp hgc
      refine ⟨?_, ?_, ?_, ?_⟩
      · exact ⟨fun _ => hfil,
          fun _ => by simp [controller_get_conversation_messages, hgc]⟩
      · exact ⟨fun _ => hfil,
          fun _ => by simp [controller_get_messages_before_timestamp, hgc]⟩
      · intro hne _
        exact absurd hfil hne
      · intro hne _
        exact absurd hfil hne
  | some d =>
      have hfil : ¬ db.user_conversations.filter
          (fun x => x.conversation_id == cid) = [] := by
        intro h
        rw [← hiff, hgc] at h
        exact Option.noConfusion h
      refine ⟨?_, ?_, ?_, ?_⟩
      · constructor
        · intro h
          exfalso
          simp [controller_get_conversation_messages, hgc] at h
        · intro h
          exact absurd h hfil
      · constructor
        · intro h
          exfalso
          simp [controller_get_messages_before_timestamp, hgc] at h
        · intro h
          exact absurd h hfil
      · intro _ hmsg
        have hrows := conversationMessagesRows_nil db cid hmsg
        simp [controller_get_conversation_messages, hgc,
          get_conversation_messages_eq, hrows]
      · intro _ hmsg
        have hrows := messagesBeforeRows_nil db cid T hmsg
        simp [controller_get_messages_before_timestamp, hgc,
          get_messages_before_timestamp_eq, hrows]

/-- Witness for C7 at `dbNoMsg`: conversation 1 exists with zero messages,
so both controllers succeed with total 0 and empty data, and neither side of
the not-found equivalences holds. -/
theorem C7_absence_vs_empty_witness :
    (controller_get_conversation_messages dbNoMsg 1 1 20 =
        .error (.httpError 404
          ("Conversation with ID " ++ toString 1 ++ " not found")) ↔
      dbNoMsg.user_conversations.filter
        (fun x => x.conversation_id == 1) = []) ∧
    (controller_get_messages_before_timestamp dbNoMsg 1 5 1 20 =
        .error (.httpError 404
          ("Conversation with ID " ++ toString 1 ++ " not found")) ↔
      dbNoMsg.user_conversations.filter
        (fun x => x.conversation_id == 1) = []) ∧
    (dbNoMsg.user_conversations.filter (fun x => x.conversation_id == 1) ≠ [] →
      dbNoMsg.messages.filter (fun m => m.conversation_id == 1) = [] →
      controller_get_conversation_messages dbNoMsg 1 1 20 =
        .ok ⟨0, 1, 20, []⟩) ∧
    (dbNoMsg.user_conversations.filter (fun x => x.conversation_id == 1) ≠ [] →
      dbNoMsg.messages.filter (fun m => m.conversation_id == 1 &&
        decide (m.timestamp < 5)) = [] →
      controller_get_messages_before_timestamp dbNoMsg 1 5 1 20 =
        .ok ⟨0, 1, 20, []⟩) :=
  C7_absence_vs_empty dbNoMsg 1 5 1 20

/-- `create_conversation` always bumps the conversation-id counter. -/
theorem create_conversation_counters (db : DB) (s2 r2 now : Nat) :
    (create_conversation db s2 r2 now).1.counters =
      incrCounter db.counters "conversation_id" := rfl

/-- C8: no data-layer write ever decreases a stored counter.
`create_message` bumps exactly the `message_id` counter by one,
`create_conversation` bumps exactly the `conversation_id` counter by one,
and `create_or_get_conversation` either leaves the counter table untouched
(lookup hit) or bumps the `conversation_id` counter by one (create path);
in every case an existing counter value is ≤ its successor.  Reads are pure
functions of the state in this embedding and cannot modify it. -/
theorem C8_counter_monotonicity (db : DB) (cid s r now A B s2 r2 : Nat)
    (c : String) (name : String) :
    ((create_message db cid s r c now).1.counters.lookup name =
      if name == "message_id" then
        some ((db.counters.lookup "message_id").getD 0 + 1)
      else db.counters.lookup name) ∧
    ((create_or_get_conversation db A B now).1.counters.lookup name =
        db.counters.lookup name ∨
      (name = "conversation_id" ∧
        (create_or_get_conversation db A B now).1.counters.lookup name =
          some ((db.counters.lookup "conversation_id").getD 0 + 1))) ∧
    ((create_conversation db s2 r2 now).1.counters.lookup name =
      if name == "conversation_id" then
        some ((db.counters.lookup "conversation_id").getD 0 + 1)
      else db.counters.lookup name) ∧
    (∀ v, db.counters.lookup name = some v →
      v ≤ ((create_message db cid s r c now).1.counters.lookup name).getD 0 ∧
      v ≤ ((create_or_get_conversation db A B now).1.counters.lookup
        name).getD 0 ∧
      v ≤ ((create_conversation db s2 r2 now).1.counters.lookup
        name).getD 0) := by
  have hcm : (create_message db cid s r c now).1.counters.lookup name =
      if name == "message_id" then
        some ((db.counters.lookup "message_id").getD 0 + 1)
      else db.counters.lookup name := by
    rw [create_message_counters, lookup_incrCounter]
  have hcc : (create_conversation db s2 r2 now).1.counters.lookup name =
      if name == "conversation_id" then
        some ((db.counters.lookup "conversation_id").getD 0 + 1)
      else db.counters.lookup name := by
    rw [create_conversation_counters, lookup_incrCounter]
  have hcg : (create_or_get_conversation db A B now).1.counters.lookup name =
        db.counters.lookup name ∨
      (name = "conversation_id" ∧
        (create_or_get_conversation db A B now).1.counters.lookup name =
          some ((db.counters.lookup "conversation_id").getD 0 + 1)) := by
    cases hv1 : db.conversation.filter
        (fun x => x.sender_id == A && x.receiver_id == B) with
    | cons v rest =>
        rw [create_or_get_found db A B now v rest hv1]
        exact Or.inl rfl
    | nil =>
        cases hv2 : db.conversation.filter
            (fun x => x.sender_id == B && x.receiver_id == A) with
        | cons v rest =>
            rw [create_or_get_found2 db A B now v rest hv1 hv2]
            exact Or.inl rfl
        | nil =>
            rw [create_or_get_fresh db A B now hv1 hv2]
            show (incrCounter db.counters "conversation_id").lookup name =
                db.counters.lookup name ∨ _
            rw [lookup_incrCounter]
            by_cases hname : name = "conversation_id"
            · refine Or.inr ⟨hname, ?_⟩
              simp [hname]
            · exact Or.inl (by simp [beq_eq_false_iff_ne.mpr hname])
  refine ⟨hcm, hcg, hcc, ?_⟩
  intro v hv
  refine ⟨?_, ?_, ?_⟩
  · rw [hcm]
    by_cases hname : name = "message_id"
    · subst hname
      simp [hv]
    · simp [beq_eq_false_iff_ne.mpr hname, hv]
  · rcases hcg with h | ⟨hn, h⟩
    · rw [h, hv]
      simp
    · rw [h]
      subst hn
      rw [hv]
      simp
  · rw [hcc]
    by_cases hname : name = "conversation_id"
    · subst hname
      simp [hv]
    · simp [beq_eq_false_iff_ne.mpr hname, hv]

/-- Witness for C8 at `dbCnt2` (conversation-id counter at 2), probing the
`conversation_id` counter. -/
theorem C8_counter_monotonicity_witness :
    ((create_message dbCnt2 1 1 2 "hi" 0).1.counters.lookup
        "conversation_id" =
      if "conversation_id" == "message_id" then
        some ((dbCnt2.counters.lookup "message_id").getD 0 + 1)
      else dbCnt2.counters.lookup "conversation_id") ∧
    ((create_or_get_conversation dbCnt2 1 2 0).1.counters.lookup
        "conversation_id" = dbCnt2.counters.lookup "conversation_id" ∨
      ("conversation_id" = "conversation_id" ∧
        (create_or_get_conversation dbCnt2 1 2 0).1.counters.lookup
          "conversation_id" =
            some ((dbCnt2.counters.lookup "conversation_id").getD 0 + 1))) ∧
    ((create_conversation dbCnt2 3 4 0).1.counters.lookup
        "conversation_id" =
      if "conversation_id" == "conversation_id" then
        some ((dbCnt2.counters.lookup "conversation_id").getD 0 + 1)
      else dbCnt2.counters.lookup "conversation_id") ∧
    (∀ v, dbCnt2.counters.lookup "conversation_id" = some v →
      v ≤ ((create_message dbCnt2 1 1 2 "hi" 0).1.counters.lookup
        "conversation_id").getD 0 ∧
      v ≤ ((create_or_get_conversation dbCnt2 1 2 0).1.counters.lookup
        "conversation_id").getD 0 ∧
      v ≤ ((create_conversation dbCnt2 3 4 0).1.counters.lookup
        "conversation_id").getD 0) :=
  C8_counter_monotonicity dbCnt2 1 1 2 0 1 2 3 4 "hi" "conversation_id"

/-- C9: when an identity-table record for the ordered pair (A, B) exists but
no summary row carries its conversation id, `create_or_get_conversation`
returns `none` instead of a summary of the existing conversation, while
still leaving the state unchanged. -/
theorem C9_orphan_identity (db : DB) (A B now : Nat) (v : ConvRecord)
    (rest : List ConvRecord)
    (h1 : db.conversation.filter
        (fun r => r.sender_id == A && r.receiver_id == B) = v :: rest)
    (h2 : db.user_conversations.filter
        (fun r => r.conversation_id == v.conversation_id) = []) :
    (create_or_get_conversation db A B now).2 = none ∧
    (create_or_get_conversation db A B now).1 = db := by
  rw [create_or_get_found db A B now v rest h1]
  exact ⟨(get_conversation_none_iff db v.conversation_id).mpr h2, rfl⟩

/-- Witness for C9 at `dbOrphan`: identity record (1, 1, 2) exists, no
summary row does, and the resolve call for (1, 2) answers `none`. -/
theorem C9_orphan_identity_witness :
    dbOrphan.conversation.filter
        (fun r => r.sender_id == 1 && r.receiver_id == 2) =
      [(⟨1, 1, 2, 0⟩ : ConvRecord)] ∧
    dbOrphan.user_conversations.filter
        (fun r => r.conversation_id ==
          (⟨1, 1, 2, 0⟩ : ConvRecord).conversation_id) = [] ∧
    ((create_or_get_conversation dbOrphan 1 2 5).2 = none ∧
      (create_or_get_conversation dbOrphan 1 2 5).1 = dbOrphan) :=
  ⟨by decide, by decide,
    C9_orphan_identity dbOrphan 1 2 5 ⟨1, 1, 2, 0⟩ [] (by decide) (by decide)⟩

/-- C10: a self-conversation row (sender = receiver = u) is matched by both
the sender scan and the receiver scan, so it occurs at least twice in the
unioned list of `get_user_conversations`, whose length is exactly the
returned total. -/
theorem C10_self_conversation_double (db : DB) (u page limit : Nat)
    (row : SummaryRow) (hmem : row ∈ db.user_conversations)
    (hs : row.sender_id = u) (hr : row.receiver_id = u) :
    2 ≤ (userConversationRows db u).count row ∧
    (get_user_conversations db u page limit).2 =
      (userConversationRows db u).length := by
  constructor
  · show 2 ≤ (db.user_conversations.filter (fun x => x.sender_id == u) ++
      db.user_conversations.filter (fun x => x.receiver_id == u)).count row
    rw [List.count_append]
    have hsm : row ∈ db.user_conversations.filter
        (fun x => x.sender_id == u) :=
      List.mem_filter.mpr ⟨hmem, by simp [hs]⟩
    have hrm : row ∈ db.user_conversations.filter
        (fun x => x.receiver_id == u) :=
      List.mem_filter.mpr ⟨hmem, by simp [hr]⟩
    have h1 := List.count_pos_iff.mpr hsm
    have h2 := List.count_pos_iff.mpr hrm
    omega
  · rw [get_user_conversations_eq]

/-- Witness for C10 at `dbSelf`: the single self-conversation row of user 3 is
counted twice by the two scans, and the returned total is the length of the
union (2). -/
theorem C10_self_conversation_double_witness :
    (⟨5, 3, 3, 9, "m"⟩ : SummaryRow) ∈ dbSelf.user_conversations ∧
    (⟨5, 3, 3, 9, "m"⟩ : SummaryRow).sender_id = 3 ∧
    (⟨5, 3, 3, 9, "m"⟩ : SummaryRow).receiver_id = 3 ∧
    (2 ≤ (userConversationRows dbSelf 3).count ⟨5, 3, 3, 9, "m"⟩ ∧
      (get_user_conversations dbSelf 3 1 20).2 =
        (userConversationRows dbSelf 3).length) :=
  ⟨by decide, rfl, rfl,
    C10_self_conversation_double dbSelf 3 1 20 ⟨5, 3, 3, 9, "m"⟩
      (by decide) rfl rfl⟩
